import Mathlib

/-!
Verification of the goldeneye-v2 load-generation engine (src/goldeneye.py)
against its natural-language specification.

The Python module defines a single class `Alpha`.  Its observable, claim-relevant
state is the shared counter pair `self.counter = [success, failure]` and the shared
latency list `self.latencies`; the HTTP session is abstracted as an oracle that
either returns a response (status code plus measured latency) or raises a
transport-level exception.  Python floats holding latencies and elapsed times are
modelled as rationals; the arithmetic the claims are about (sums, means, maxima,
divisions with guards) is exact in the source in the sense modelled here.
-/

namespace Goldeneye

/-- Method-name constants of the module (`METHOD_GET`, `METHOD_POST`, `METHOD_RAND`). -/
def METHOD_GET : String := "get"

def METHOD_POST : String := "post"

def METHOD_RAND : String := "random"

/-- Default worker count (`DEFAULT_WORKERS = 50`). -/
def DEFAULT_WORKERS : Nat := 50

/-- Default requests-per-cycle count (`DEFAULT_SOCKETS = 350`). -/
def DEFAULT_SOCKETS : Nat := 350

/-- Default per-worker rate limit (`DEFAULT_RATE_LIMIT = 10000`). -/
def DEFAULT_RATE_LIMIT : Int := 10000

/-- The fixed user-agent pool (`USER_AGENTS`). -/
def USER_AGENTS : List String :=
  ["Mozilla/5.0 (Windows NT 10.0; Win64; x64) AppleWebKit/537.36 (KHTML, like Gecko) Chrome/134.0.0.0 Safari/537.36",
   "Mozilla/5.0 (Macintosh; Intel Mac OS X 10_15_7) AppleWebKit/605.1.15 (KHTML, like Gecko) Version/17.10 Safari/605.1.15",
   "Mozilla/5.0 (X11; Linux x86_64) AppleWebKit/537.36 (KHTML, like Gecko) Chrome/134.0.0.0 Safari/537.36",
   "Mozilla/5.0 (iPhone; CPU iPhone OS 18_3_2 like Mac OS X) AppleWebKit/605.1.15 (KHTML, like Gecko) CriOS/134.0.6998.99 Mobile/15E148 Safari/604.1"]

/-- Python `str.upper()` restricted to the ASCII method names the engine compares
(`method.upper()` at lines 171, 190, 192). -/
def pyUpper (s : String) : String := String.mk (s.data.map Char.toUpper)

/-- The run configuration fields stored by `Alpha.__init__` that the claims depend on.
`rate_limit` holds the already-clamped value `max(1, rate_limit)` stored at line 65;
`Alpha.init` below performs the clamping.  `url` parsing into `base_url`/`path`
(via `urllib.parse`) is not modelled; where needed those appear as parameters. -/
structure AlphaConfig where
  url : String
  workers : Nat
  sockets : Nat
  method : String
  rate_limit : Int
  duration : Option Int
  dry_run : Bool
deriving DecidableEq

/-- `Alpha.__init__`: stores the configuration, clamping the rate limit with
`self.rate_limit = max(1, rate_limit)` (line 65). -/
def Alpha.init (url : String) (workers sockets : Nat) (method : String)
    (rate_limit : Int) (duration : Option Int) (dry_run : Bool) : AlphaConfig :=
  { url := url, workers := workers, sockets := sockets, method := method,
    rate_limit := max 1 rate_limit, duration := duration, dry_run := dry_run }

/-- The shared mutable state of an `Alpha` instance: `self.counter[0]` (successes),
`self.counter[1]` (failures), and `self.latencies`. -/
structure AlphaState where
  success : Nat
  failure : Nat
  latencies : List ℚ
deriving DecidableEq

/-- The state right after `Alpha.__init__`: `counter = [0, 0]`, `latencies = []`. -/
def initState : AlphaState := ⟨0, 0, []⟩

/-- The method-resolution expression appearing identically at line 169
(in `generate_request`) and line 184 (in `strike`):
`random.choice([METHOD_GET, METHOD_POST]) if self.method == METHOD_RAND else self.method`.
The two-way `random.choice` draw is modelled by the Boolean `coin`
(`true` picks `METHOD_GET`, `false` picks `METHOD_POST`). -/
def resolveMethod (cfgMethod : String) (coin : Bool) : String :=
  if cfgMethod = METHOD_RAND then (if coin then METHOD_GET else METHOD_POST) else cfgMethod

/-- Outcome of one awaited `self.session.get`/`self.session.post` call:
either a response carrying a status code together with the wall-clock latency
measured around the call (in milliseconds), or an exception
(`httpx.HTTPError` or any other `Exception`) raised by the transport. -/
inductive DispatchResult where
  | response (status : Nat) (latency : ℚ)
  | fault
deriving DecidableEq

/-- What one call to `Alpha.strike` produces: the returned Boolean, the updated
shared state, and the list of HTTP dispatches it performed (each entry is the
method of one `session.get`/`session.post` call, in order). -/
structure StrikeResult where
  returned : Bool
  state : AlphaState
  networkCalls : List String
deriving DecidableEq

/-- The body of the `try` block of `Alpha.strike` from the dispatch onwards
(lines 190-214), for a supported method: the session call is abstracted by `net`.
On a response, the latency is appended (lines 199-200) and the attempt is
classified by `200 <= resp.status_code < 400` (lines 202-207); on an exception
the handlers increment the failure counter (lines 209-214) without touching the
latency list, and `strike` falls through to `return success` with `success`
still `False`. -/
def strikeDispatch (st : AlphaState) (method : String) (net : DispatchResult) : StrikeResult :=
  match net with
  | .response status latency =>
    let st1 : AlphaState := { st with latencies := st.latencies ++ [latency] }
    if 200 ≤ status ∧ status < 400 then
      ⟨true, { st1 with success := st1.success + 1 }, [method]⟩
    else
      ⟨false, { st1 with failure := st1.failure + 1 }, [method]⟩
  | .fault =>
    ⟨false, { st with failure := st.failure + 1 }, [method]⟩

/-- `Alpha.strike` (lines 178-216).  In dry-run mode it increments the success
counter and returns `True` without any dispatch (lines 180-182).  Otherwise it
re-resolves the method with a fresh random draw (line 184, modelled by `coin`),
dispatches via the session for `GET`/`POST`, and for any other method increments
the failure counter and returns `False` without dispatching (lines 195-197). -/
def Alpha.strike (cfg : AlphaConfig) (st : AlphaState) (coin : Bool)
    (net : DispatchResult) : StrikeResult :=
  if cfg.dry_run then
    ⟨true, { st with success := st.success + 1 }, []⟩
  else
    let method := resolveMethod cfg.method coin
    if pyUpper method = "GET" then
      strikeDispatch st method net
    else if pyUpper method = "POST" then
      strikeDispatch st method net
    else
      ⟨false, { st with failure := st.failure + 1 }, []⟩

/-- The random draws `Alpha.generate_request` consumes, in source order:
`randint(100000, 999999)` for the cache buster, `random.choice(self.user_agents)`,
`randint(1000, 9999)` for the referer query, the `random.choice([get, post])`
coin used when the method mode is `random`, `randint(1, 1000)` for the body key,
and `randint(1, self.workers)` for the worker id. -/
structure GenRandom where
  cacheQ : Nat
  uaIndex : Fin USER_AGENTS.length
  refererQ : Nat
  coin : Bool
  bodyN : Nat
  workerId : Nat

/-- The JSON POST body built at line 174:
`{"key": f"data_{randint(1, 1000)}", "timestamp": int(time.time()), "worker_id": randint(1, self.workers)}`. -/
structure PostBody where
  key : String
  timestamp : Int
  worker_id : Nat
deriving DecidableEq

/-- `Alpha.generate_request` (lines 154-176).  `path` and `base_url` stand for
`self.path` and `self.base_url`; `now` stands for `int(time.time())`.  Returns
the `(url_path, headers, body)` tuple of the source; note the resolved method is
used only to decide whether to attach the JSON body and `Content-Type` header,
and is not part of the returned tuple. -/
def Alpha.generate_request (cfg : AlphaConfig) (path base_url : String) (now : Int)
    (r : GenRandom) : String × List (String × String) × Option PostBody :=
  let cache_buster := "?q=" ++ toString r.cacheQ
  let url_path := path ++ cache_buster
  let headers := [("User-Agent", USER_AGENTS.get r.uaIndex),
                  ("Connection", "keep-alive"),
                  ("Referer", base_url ++ "/search?q=" ++ toString r.refererQ),
                  ("Accept-Encoding", "gzip, deflate, br")]
  let method := resolveMethod cfg.method r.coin
  if pyUpper method = "POST" then
    (url_path, headers ++ [("Content-Type", "application/json")],
     some ⟨"data_" ++ toString r.bodyN, now, r.workerId⟩)
  else
    (url_path, headers, none)

/-- The per-request pacing delay computed in `Alpha.worker` (line 222):
`delay_per_request = 1.0 / self.rate_limit` (seconds). -/
def Alpha.delay_per_request (cfg : AlphaConfig) : ℚ := 1 / (cfg.rate_limit : ℚ)

/-- Python `max()` over a list, as used on the nonempty `self.latencies`
(line 111); returns 0 on the empty list, on which the source never calls it. -/
def pyMaxList : List ℚ → ℚ
  | [] => 0
  | [x] => x
  | x :: y :: xs => max x (pyMaxList (y :: xs))

/-- The statistics snapshot fields the presentation layer renders. -/
structure StatsSnapshot where
  total : Nat
  rate : ℚ
  avg_latency : ℚ
  max_latency : ℚ
  elapsed : ℚ
deriving DecidableEq

/-- The statistics computation of `Alpha.get_stats_table` (lines 102-113), which
the fallback branch of `print_stats` (lines 144-148) repeats: `elapsed` stands for
`time.time() - self.start_time`.  Reads the shared state and returns a snapshot;
it performs no assignment to `self.counter` or `self.latencies`, which the purely
functional signature reflects. -/
def Alpha.get_stats (st : AlphaState) (elapsed : ℚ) : StatsSnapshot :=
  let total_requests := st.success + st.failure
  let rate : ℚ := if elapsed > 0 then (total_requests : ℚ) / elapsed else 0
  let avg_latency : ℚ :=
    if st.latencies ≠ [] then st.latencies.sum / (st.latencies.length : ℚ) else 0
  let max_latency : ℚ := if st.latencies ≠ [] then pyMaxList st.latencies else 0
  ⟨total_requests, rate, avg_latency, max_latency, elapsed⟩

/-- The StatsAggregator exactly as the specification words it: total = success +
failure; rate = total / elapsed with 0 if elapsed ≤ 0; average latency = mean of
the samples (0 if empty); maximum latency = max of the samples (0 if empty). -/
def spec_stats (st : AlphaState) (elapsed : ℚ) : StatsSnapshot :=
  { total := st.success + st.failure,
    rate := if elapsed ≤ 0 then 0 else ((st.success + st.failure : Nat) : ℚ) / elapsed,
    avg_latency := if st.latencies = [] then 0
                   else st.latencies.sum / (st.latencies.length : ℚ),
    max_latency := if st.latencies = [] then 0 else pyMaxList st.latencies,
    elapsed := elapsed }

/-- `Alpha.run` (lines 238-260).  The dry-run branch (lines 241-244) logs, sleeps
one second and returns without spawning any worker, so it neither calls `strike`
nor performs network I/O; the non-dry branch spawns the worker pool, abstracted
here by `workerPhase`, which maps the state at spawn time to the state at
shutdown together with the number of network calls performed. -/
def Alpha.run (cfg : AlphaConfig) (st : AlphaState)
    (workerPhase : AlphaState → AlphaState × Nat) : AlphaState × Nat :=
  if cfg.dry_run then (st, 0) else workerPhase st

/-- Folding a sequence of completed `strike` calls over the shared state: each
list entry carries the random method draw and the dispatch outcome of one call. -/
def strikeMany (cfg : AlphaConfig) (st : AlphaState)
    (calls : List (Bool × DispatchResult)) : AlphaState :=
  calls.foldl (fun s c => (Alpha.strike cfg s c.1 c.2).state) st

/-- Every single `strike` call increments exactly one of the two counters by
exactly one, whatever the mode, method and dispatch outcome. -/
theorem strike_step_exact (cfg : AlphaConfig) (st : AlphaState) (coin : Bool)
    (net : DispatchResult) :
    ((Alpha.strike cfg st coin net).state.success = st.success + 1 ∧
     (Alpha.strike cfg st coin net).state.failure = st.failure) ∨
    ((Alpha.strike cfg st coin net).state.success = st.success ∧
     (Alpha.strike cfg st coin net).state.failure = st.failure + 1) := by
  cases net <;>
    simp only [Alpha.strike, strikeDispatch] <;>
    split_ifs <;> simp

/-- Every single `strike` call grows `success + failure` by exactly one. -/
theorem strike_step_total (cfg : AlphaConfig) (st : AlphaState) (coin : Bool)
    (net : DispatchResult) :
    (Alpha.strike cfg st coin net).state.success + (Alpha.strike cfg st coin net).state.failure
      = st.success + st.failure + 1 := by
  rcases strike_step_exact cfg st coin net with ⟨h1, h2⟩ | ⟨h1, h2⟩ <;> omega

/-- After any sequence of completed `strike` calls, `success + failure` has grown
by exactly the number of calls. -/
theorem strikeMany_total (cfg : AlphaConfig) (calls : List (Bool × DispatchResult)) :
    ∀ st : AlphaState,
      (strikeMany cfg st calls).success + (strikeMany cfg st calls).failure
        = st.success + st.failure + calls.length := by
  induction calls with
  | nil => intro st; simp [strikeMany]
  | cons c cs ih =>
    intro st
    have hstep := strike_step_total cfg st c.1 c.2
    have h := ih (Alpha.strike cfg st c.1 c.2).state
    simp only [strikeMany, List.foldl_cons, List.length_cons] at *
    omega

/-- C1: each call to `strike` increments exactly one of the two shared counters
by exactly one, so after any number of completed `strike` calls starting from the
freshly initialised state, `success + failure` equals the number of attempts
dispatched.  (In the embedding, `strike` is the only operation that writes the
counters; `generate_request` and the statistics functions are pure.) -/
theorem C1_counters_track_attempts :
    (∀ (cfg : AlphaConfig) (st : AlphaState) (coin : Bool) (net : DispatchResult),
       ((Alpha.strike cfg st coin net).state.success = st.success + 1 ∧
        (Alpha.strike cfg st coin net).state.failure = st.failure) ∨
       ((Alpha.strike cfg st coin net).state.success = st.success ∧
        (Alpha.strike cfg st coin net).state.failure = st.failure + 1)) ∧
    (∀ (cfg : AlphaConfig) (calls : List (Bool × DispatchResult)),
       (strikeMany cfg initState calls).success + (strikeMany cfg initState calls).failure
         = calls.length) := by
  refine ⟨strike_step_exact, fun cfg calls => ?_⟩
  simpa [initState] using strikeMany_total cfg calls initState

/-- C2: a non-dry-run `strike` that receives an HTTP response succeeds (returns
`True` and increments the success counter) exactly when `200 <= status < 400`;
any other status increments the failure counter and returns `False`. -/
theorem C2_success_classification (cfg : AlphaConfig) (st : AlphaState) (coin : Bool)
    (status : Nat) (lat : ℚ)
    (hdry : cfg.dry_run = false)
    (hm : pyUpper (resolveMethod cfg.method coin) = "GET" ∨
          pyUpper (resolveMethod cfg.method coin) = "POST") :
    ((Alpha.strike cfg st coin (.response status lat)).returned = true ↔
       (200 ≤ status ∧ status < 400)) ∧
    ((200 ≤ status ∧ status < 400) →
       (Alpha.strike cfg st coin (.response status lat)).state.success = st.success + 1 ∧
       (Alpha.strike cfg st coin (.response status lat)).state.failure = st.failure) ∧
    (¬(200 ≤ status ∧ status < 400) →
       (Alpha.strike cfg st coin (.response status lat)).returned = false ∧
       (Alpha.strike cfg st coin (.response status lat)).state.failure = st.failure + 1 ∧
       (Alpha.strike cfg st coin (.response status lat)).state.success = st.success) := by
  rcases hm with h | h <;>
    simp only [Alpha.strike, strikeDispatch, hdry, Bool.false_eq_true, if_false, h] <;>
    · simp only [String.reduceEq, if_true, if_false, reduceIte]
      split_ifs with hcl <;> simp_all

/-- Witness for C2 at a concrete configuration and status. -/
theorem C2_success_classification_witness :
    (Alpha.strike ⟨"u", 1, 1, "get", 1, none, false⟩ initState true
        (.response 200 1)).returned = true := by
  exact (C2_success_classification ⟨"u", 1, 1, "get", 1, none, false⟩ initState true 200 1
    rfl (Or.inl (by decide))).1.mpr (by decide)

/-- C3: when the dispatch of a supported method raises a transport-level fault,
`strike` absorbs it: the failure counter grows by one, success and latencies are
untouched, `False` is returned (rather than an exception propagating — in the
embedding `strike` is a total function), and exactly one dispatch was attempted
(the singleton `networkCalls` list: never retried). -/
theorem C3_fault_absorbed (cfg : AlphaConfig) (st : AlphaState) (coin : Bool)
    (hdry : cfg.dry_run = false)
    (hm : pyUpper (resolveMethod cfg.method coin) = "GET" ∨
          pyUpper (resolveMethod cfg.method coin) = "POST") :
    Alpha.strike cfg st coin .fault
      = ⟨false, ⟨st.success, st.failure + 1, st.latencies⟩, [resolveMethod cfg.method coin]⟩ := by
  rcases hm with h | h <;>
    simp only [Alpha.strike, strikeDispatch, hdry, Bool.false_eq_true, if_false, h,
      String.reduceEq, reduceIte]

/-- Witness for C3 at a concrete configuration. -/
theorem C3_fault_absorbed_witness :
    Alpha.strike ⟨"u", 1, 1, "get", 1, none, false⟩ initState true .fault
      = ⟨false, ⟨0, 1, []⟩, ["get"]⟩ := by
  exact C3_fault_absorbed ⟨"u", 1, 1, "get", 1, none, false⟩ initState true
    rfl (Or.inl (by decide))

/-- C4 as stated is false: `strike` re-resolves the method with a fresh random
draw (line 184), independent of the draw `generate_request` used (line 169).  At
this concrete input the generation draw resolves POST — the descriptor carries
the JSON body and the `Content-Type: application/json` header — while the strike
draw resolves GET, so the dispatched method is GET, not POST. -/
theorem C4_counterexample :
    (Alpha.generate_request ⟨"u", 5, 1, METHOD_RAND, 1, none, false⟩ "/" "http://u" 0
        ⟨123456, ⟨0, by decide⟩, 1234, false, 7, 3⟩).2.2
      = some ⟨"data_7", 0, 3⟩ ∧
    ("Content-Type", "application/json") ∈
      (Alpha.generate_request ⟨"u", 5, 1, METHOD_RAND, 1, none, false⟩ "/" "http://u" 0
        ⟨123456, ⟨0, by decide⟩, 1234, false, 7, 3⟩).2.1 ∧
    resolveMethod METHOD_RAND false = METHOD_POST ∧
    (Alpha.strike ⟨"u", 5, 1, METHOD_RAND, 1, none, false⟩ initState true
        (.response 200 1)).networkCalls = [METHOD_GET] ∧
    METHOD_GET ≠ METHOD_POST := by
  refine ⟨by decide, by decide, by decide, by decide, by decide⟩

/-- C4 amended: when the configured method mode is not RANDOM, both resolution
sites yield the configured method, so the method `strike` dispatches always
equals the method resolved when the descriptor was generated; only in RANDOM
mode do the two independent draws allow them to differ. -/
theorem C4_method_stable_when_not_random (cfg : AlphaConfig) (st : AlphaState)
    (coinGen coinStrike : Bool) (status : Nat) (lat : ℚ)
    (hdry : cfg.dry_run = false)
    (hnr : cfg.method ≠ METHOD_RAND)
    (hm : pyUpper cfg.method = "GET" ∨ pyUpper cfg.method = "POST") :
    resolveMethod cfg.method coinStrike = resolveMethod cfg.method coinGen ∧
    (Alpha.strike cfg st coinStrike (.response status lat)).networkCalls
      = [resolveMethod cfg.method coinGen] := by
  have hres : ∀ b : Bool, resolveMethod cfg.method b = cfg.method := by
    intro b; simp [resolveMethod, hnr]
  refine ⟨by rw [hres, hres], ?_⟩
  rcases hm with h | h <;>
    · simp only [Alpha.strike, strikeDispatch, hdry, Bool.false_eq_true, if_false, hres,
        h, String.reduceEq, reduceIte]
      split_ifs <;> rfl

/-- Witness for the amended C4 at a concrete POST configuration. -/
theorem C4_method_stable_when_not_random_witness :
    (Alpha.strike ⟨"u", 1, 1, "post", 1, none, false⟩ initState true
        (.response 200 1)).networkCalls = [resolveMethod "post" false] := by
  exact (C4_method_stable_when_not_random ⟨"u", 1, 1, "post", 1, none, false⟩ initState
    false true 200 1 rfl (by decide) (Or.inr (by decide))).2

/-- C5 as stated is false: with `workers=1, sockets=1, rate_limit=1,
dry_run=true`, the dry-run branch of `run` (lines 241-244) returns after a pause
without spawning any worker, so `strike` is never called and the success counter
stays 0, not 1. -/
theorem C5_counterexample :
    (Alpha.run (Alpha.init "http://u" 1 1 METHOD_POST 1 none true) initState
        (fun s => (s, 0))).1.success ≠ 1 := by decide

/-- C5 amended: for that configuration the run completes with `success = 0` and
`failure = 0` and zero network calls, whatever the (never entered) worker phase
would have done, because dry-run skips worker spawning entirely. -/
theorem C5_dry_run_makes_no_attempts (wp : AlphaState → AlphaState × Nat) :
    (Alpha.run (Alpha.init "http://u" 1 1 METHOD_POST 1 none true) initState wp).1.success
        = 0 ∧
    (Alpha.run (Alpha.init "http://u" 1 1 METHOD_POST 1 none true) initState wp).1.failure
        = 0 ∧
    (Alpha.run (Alpha.init "http://u" 1 1 METHOD_POST 1 none true) initState wp).2 = 0 := by
  refine ⟨rfl, rfl, rfl⟩

/-- C6 as stated is false: a non-dry-run attempt whose dispatch raises a
transport fault is counted as a failure, yet the exception handler (lines
209-214) is reached before the latency append (line 200), so no latency sample
is recorded for it. -/
theorem C6_counterexample :
    (Alpha.strike ⟨"u", 1, 1, METHOD_GET, 1, none, false⟩ initState true
        .fault).state.failure = initState.failure + 1 ∧
    (Alpha.strike ⟨"u", 1, 1, METHOD_GET, 1, none, false⟩ initState true
        .fault).state.latencies.length ≠ initState.latencies.length + 1 := by
  refine ⟨by decide, by decide⟩

/-- C6 amended: a non-dry-run `strike` on a supported method appends exactly one
latency sample when (and only when) the dispatch returns an HTTP response,
regardless of success/failure classification; a transport fault appends none;
and in every case the latency sequence is append-only (the old samples stay,
in order, at the front). -/
theorem C6_latency_appended_on_response (cfg : AlphaConfig) (st : AlphaState)
    (coin : Bool) (status : Nat) (lat : ℚ)
    (hdry : cfg.dry_run = false)
    (hm : pyUpper (resolveMethod cfg.method coin) = "GET" ∨
          pyUpper (resolveMethod cfg.method coin) = "POST") :
    (Alpha.strike cfg st coin (.response status lat)).state.latencies
        = st.latencies ++ [lat] ∧
    (Alpha.strike cfg st coin .fault).state.latencies = st.latencies ∧
    (∀ net : DispatchResult, ∃ tail : List ℚ,
       (Alpha.strike cfg st coin net).state.latencies = st.latencies ++ tail) := by
  have key : ∀ net : DispatchResult,
      Alpha.strike cfg st coin net = strikeDispatch st (resolveMethod cfg.method coin) net := by
    intro net
    rcases hm with h | h <;>
      simp only [Alpha.strike, hdry, Bool.false_eq_true, if_false, h,
        String.reduceEq, reduceIte]
  refine ⟨?_, ?_, ?_⟩
  · rw [key]; simp [strikeDispatch]; split_ifs <;> rfl
  · rw [key]; rfl
  · intro net
    rw [key]
    cases net with
    | response s l => exact ⟨[l], by simp [strikeDispatch]; split_ifs <;> rfl⟩
    | fault => exact ⟨[], by simp [strikeDispatch]⟩

/-- Witness for the amended C6: a 500 response (a failure) still appends its
latency sample. -/
theorem C6_latency_appended_on_response_witness :
    (Alpha.strike ⟨"u", 1, 1, "get", 1, none, false⟩ initState true
        (.response 500 3)).state.latencies = initState.latencies ++ [3] := by
  exact (C6_latency_appended_on_response ⟨"u", 1, 1, "get", 1, none, false⟩ initState true
    500 3 rfl (Or.inl (by decide))).1

/-- Python `max` over a nonempty list bounds every element. -/
theorem le_pyMaxList : ∀ (l : List ℚ), ∀ x ∈ l, x ≤ pyMaxList l
  | [] => by simp
  | [a] => by
      intro x hx
      simp only [List.mem_singleton] at hx
      simp [pyMaxList, hx]
  | a :: b :: t => by
      intro x hx
      rcases List.mem_cons.mp hx with rfl | hx2
      · simp [pyMaxList]
      · calc x ≤ pyMaxList (b :: t) := le_pyMaxList (b :: t) x hx2
          _ ≤ max a (pyMaxList (b :: t)) := le_max_right _ _
          _ = pyMaxList (a :: b :: t) := by rw [pyMaxList]

/-- C7: the snapshot computed by the code equals the specification's formulas —
total = success + failure, rate = total / elapsed (0 when elapsed ≤ 0), average
latency = mean of the samples and maximum latency = max of the samples (both 0
when there are none) — and the reported maximum indeed bounds every sample.
The computation is a pure function of the state: it mutates nothing. -/
theorem C7_stats_snapshot (st : AlphaState) (elapsed : ℚ) :
    Alpha.get_stats st elapsed = spec_stats st elapsed ∧
    (∀ x ∈ st.latencies, x ≤ (Alpha.get_stats st elapsed).max_latency) := by
  constructor
  · simp only [Alpha.get_stats, spec_stats, StatsSnapshot.mk.injEq]
    refine ⟨trivial, ?_, ?_, ?_, trivial⟩
    · split_ifs <;> first | rfl | linarith
    · split_ifs <;> simp_all
    · split_ifs <;> simp_all
  · intro x hx
    have hne : st.latencies ≠ [] := by rintro h; rw [h] at hx; simp at hx
    simp only [Alpha.get_stats, if_pos hne, hne, reduceIte, ne_eq, not_false_iff]
    exact le_pyMaxList st.latencies x hx

/-- Witness for C7 at a concrete state with two samples. -/
theorem C7_stats_snapshot_witness :
    Alpha.get_stats ⟨2, 1, [3, 5]⟩ 4 = spec_stats ⟨2, 1, [3, 5]⟩ 4 ∧
    (3 : ℚ) ≤ (Alpha.get_stats ⟨2, 1, [3, 5]⟩ 4).max_latency := by
  exact ⟨(C7_stats_snapshot ⟨2, 1, [3, 5]⟩ 4).1,
         (C7_stats_snapshot ⟨2, 1, [3, 5]⟩ 4).2 3 (by simp)⟩

/-- C8: a descriptor whose resolved method is POST carries the
`Content-Type: application/json` header and a body `data_<n>` key
(n in [1, 1000]), the current unix-seconds timestamp, and a worker id in
[1, workers]; a descriptor whose resolved method is GET carries no body.
The range hypotheses mirror `randint(1, 1000)` and `randint(1, self.workers)`. -/
theorem C8_post_descriptor (cfg : AlphaConfig) (path base_url : String) (now : Int)
    (r : GenRandom) (h1 : 1 ≤ r.bodyN) (h2 : r.bodyN ≤ 1000)
    (h3 : 1 ≤ r.workerId) (h4 : r.workerId ≤ cfg.workers) :
    (pyUpper (resolveMethod cfg.method r.coin) = "POST" →
       ("Content-Type", "application/json") ∈
         (Alpha.generate_request cfg path base_url now r).2.1 ∧
       (Alpha.generate_request cfg path base_url now r).2.2
         = some ⟨"data_" ++ toString r.bodyN, now, r.workerId⟩ ∧
       1 ≤ r.bodyN ∧ r.bodyN ≤ 1000 ∧ 1 ≤ r.workerId ∧ r.workerId ≤ cfg.workers) ∧
    (pyUpper (resolveMethod cfg.method r.coin) = "GET" →
       (Alpha.generate_request cfg path base_url now r).2.2 = none) := by
  constructor
  · intro hp
    refine ⟨?_, ?_, h1, h2, h3, h4⟩ <;> simp [Alpha.generate_request, hp]
  · intro hg
    have hnp : pyUpper (resolveMethod cfg.method r.coin) ≠ "POST" := by
      rw [hg]; decide
    simp [Alpha.generate_request, hnp]

/-- Witness for C8 at a concrete POST configuration and draws. -/
theorem C8_post_descriptor_witness :
    (Alpha.generate_request ⟨"u", 1, 1, "post", 1, none, false⟩ "/" "http://u" 42
        ⟨123456, ⟨0, by decide⟩, 1234, true, 7, 1⟩).2.2 = some ⟨"data_7", 42, 1⟩ := by
  exact ((C8_post_descriptor ⟨"u", 1, 1, "post", 1, none, false⟩ "/" "http://u" 42
    ⟨123456, ⟨0, by decide⟩, 1234, true, 7, 1⟩ (by decide) (by decide) (by decide)
    (by decide)).1 (by decide)).2.1

/-- C9: a non-dry-run `strike` whose resolved method is neither GET nor POST
increments the failure counter by one and returns `False`, with no network call
attempted (empty dispatch list) and no latency sample recorded. -/
theorem C9_unsupported_method (cfg : AlphaConfig) (st : AlphaState) (coin : Bool)
    (net : DispatchResult)
    (hdry : cfg.dry_run = false)
    (hg : pyUpper (resolveMethod cfg.method coin) ≠ "GET")
    (hp : pyUpper (resolveMethod cfg.method coin) ≠ "POST") :
    Alpha.strike cfg st coin net
      = ⟨false, ⟨st.success, st.failure + 1, st.latencies⟩, []⟩ := by
  simp only [Alpha.strike, hdry, Bool.false_eq_true, if_false, if_neg hg, if_neg hp]

/-- Witness for C9 with the unsupported configured method `put`. -/
theorem C9_unsupported_method_witness :
    Alpha.strike ⟨"u", 1, 1, "put", 1, none, false⟩ initState true (.response 200 1)
      = ⟨false, ⟨0, 1, []⟩, []⟩ := by
  exact C9_unsupported_method ⟨"u", 1, 1, "put", 1, none, false⟩ initState true
    (.response 200 1) rfl (by decide) (by decide)

/-- C10: for every constructor input `rate_limit` (zero and negatives included),
`__init__` stores `max(1, rate_limit)`, so the stored limit is at least 1 and the
worker's pacing delay `1.0 / rate_limit` is well-defined, positive, and at most
one second. -/
theorem C10_rate_limit_clamped (url : String) (workers sockets : Nat) (method : String)
    (rl : Int) (duration : Option Int) (dry : Bool) :
    (Alpha.init url workers sockets method rl duration dry).rate_limit = max 1 rl ∧
    1 ≤ (Alpha.init url workers sockets method rl duration dry).rate_limit ∧
    0 < Alpha.delay_per_request (Alpha.init url workers sockets method rl duration dry) ∧
    Alpha.delay_per_request (Alpha.init url workers sockets method rl duration dry) ≤ 1 := by
  have h2 : (1 : Int) ≤ max 1 rl := le_max_left 1 rl
  have hq : (1 : ℚ) ≤ ((max 1 rl : Int) : ℚ) := by exact_mod_cast h2
  have hpos : (0 : ℚ) < ((max 1 rl : Int) : ℚ) := lt_of_lt_of_le one_pos hq
  have hdelay : Alpha.delay_per_request (Alpha.init url workers sockets method rl duration dry)
      = 1 / ((max 1 rl : Int) : ℚ) := rfl
  refine ⟨rfl, h2, ?_, ?_⟩
  · rw [hdelay]; exact one_div_pos.mpr hpos
  · rw [hdelay, div_le_one hpos]; exact hq

end Goldeneye
